import Mathlib

/-!
Verification of the gopos-ratelimiter rate-limiting core.

The Go source is shallowly embedded:

* `MockStorage` embeds `pkg/storage/mock_storage.go` (maps become functions
  `String → Option Int`, `time.Time`/`time.Duration` become `Int` in seconds,
  `time.After` is strict `>`).
* `StorageOps` embeds the `pkg/storage.Storage` interface; the `error` payload
  is modelled as `Unit` since the engine inspects errors only for nil-ness.
* `checkLimit` embeds `(*RateLimiter).CheckLimit` from `pkg/limiter/limiter.go`,
  one constructor of `CheckError` per `return fmt.Errorf(...)` site.
* `middlewareHandler` embeds `(*RateLimiterMiddleware).Handler` from
  `pkg/middleware/ratelimiter.go`.

`logOps` instruments the in-memory backend with a trace of the storage
operations performed, so that statements about which keys are queried or
written can be proved.
-/

/-- Configuration of the rate limiter (`limiter.Config`): per-second limits
for the IP and token dimensions and the block duration (seconds). -/
structure Config where
  ipLimit : Int
  tokenLimit : Int
  blockDuration : Int
deriving Repr, DecidableEq

/-- State of the in-memory backend `storage.MockStorage`: the counter map,
the block-expiry map and the mock's notion of the current time. Go's
`map[string]int64` is a partial map, so absent keys are `none`. -/
structure MockStorage where
  counters : String → Option Int
  blocked : String → Option Int
  currentTime : Int

/-- `storage.NewMockStorage()` with the mock's initial clock abstracted as
`t0`: both maps empty. -/
def newMockStorage (t0 : Int) : MockStorage :=
  { counters := fun _ => none, blocked := fun _ => none, currentTime := t0 }

/-- `MockStorage.Increment`: `m.counters[key]++` (a missing key reads as 0)
and return the new count. The `expiration` argument is ignored, exactly as in
the Go source. Never fails. -/
def MockStorage.increment (m : MockStorage) (key : String) (_expiration : Int) :
    Int × MockStorage :=
  let c := (m.counters key).getD 0 + 1
  (c, { m with counters := fun k => if k = key then some c else m.counters k })

/-- `MockStorage.IsBlocked`: a key is blocked iff its block entry exists and
its expiry is strictly after the mock's current time (`blockTime.After`). -/
def MockStorage.isBlocked (m : MockStorage) (key : String) : Bool :=
  match m.blocked key with
  | some t => decide (m.currentTime < t)
  | none => false

/-- `MockStorage.Block`: set the block entry for `key` to
`currentTime + duration`, overwriting any prior entry. -/
def MockStorage.block (m : MockStorage) (key : String) (duration : Int) :
    MockStorage :=
  { m with blocked := fun k => if k = key then some (m.currentTime + duration)
                               else m.blocked k }

/-- `MockStorage.Reset`: delete both the counter entry and the block entry
for `key`. -/
def MockStorage.reset (m : MockStorage) (key : String) : MockStorage :=
  { m with counters := fun k => if k = key then none else m.counters k,
           blocked := fun k => if k = key then none else m.blocked k }

/-- `MockStorage.SetCurrentTime` test helper. -/
def MockStorage.setCurrentTime (m : MockStorage) (t : Int) : MockStorage :=
  { m with currentTime := t }

/-- `MockStorage.AdvanceTime` test helper. -/
def MockStorage.advanceTime (m : MockStorage) (d : Int) : MockStorage :=
  { m with currentTime := m.currentTime + d }

/-- The `storage.Storage` interface consumed by the engine: each operation
takes and returns the backend state and may fail (`Except Unit`). -/
structure StorageOps (σ : Type) where
  increment : σ → String → Int → Except Unit Int × σ
  isBlocked : σ → String → Except Unit Bool × σ
  block : σ → String → Int → Except Unit Unit × σ
  reset : σ → String → Except Unit Unit × σ

/-- The in-memory backend packaged as a `Storage` implementation; its
operations never fail, mirroring the `return ..., nil` of the Go mock. -/
def mockOps : StorageOps MockStorage :=
  { increment := fun m k d => let p := m.increment k d; (.ok p.1, p.2)
    isBlocked := fun m k => (.ok (m.isBlocked k), m)
    block := fun m k d => (.ok (), m.block k d)
    reset := fun m k => (.ok (), m.reset k) }

/-- One result constructor per `return` site of `CheckLimit`
(`pkg/limiter/limiter.go`). The two `Blocked` and the two `LimitExceeded`
constructors correspond to the spec's reasons *Blocked and *LimitExceeded;
the remaining constructors are the storage-failure returns. -/
inductive CheckError where
  | tokenBlockCheckFailed
  | tokenBlocked
  | ipBlockCheckFailed
  | ipBlocked
  | tokenIncrementFailed
  | tokenBlockFailed
  | tokenResetFailed
  | tokenLimitExceeded
  | ipIncrementFailed
  | ipBlockFailed
  | ipResetFailed
  | ipLimitExceeded
deriving Repr, DecidableEq

/-- The token-dimension increment/threshold/block/reset phase of
`CheckLimit`: `Increment(token, 1s)`; if the count exceeds the token limit,
`Block(token, blockDuration)` then `Reset(token)` then reject. -/
def tokenIncrPhase {σ : Type} (ops : StorageOps σ) (cfg : Config)
    (token : String) (st : σ) : Except CheckError Unit × σ :=
  match ops.increment st token 1 with
  | (.error _, st1) => (.error .tokenIncrementFailed, st1)
  | (.ok count, st1) =>
    if count > cfg.tokenLimit then
      match ops.block st1 token cfg.blockDuration with
      | (.error _, st2) => (.error .tokenBlockFailed, st2)
      | (.ok _, st2) =>
        match ops.reset st2 token with
        | (.error _, st3) => (.error .tokenResetFailed, st3)
        | (.ok _, st3) => (.error .tokenLimitExceeded, st3)
    else (.ok (), st1)

/-- The IP-dimension increment/threshold/block/reset phase of `CheckLimit`. -/
def ipIncrPhase {σ : Type} (ops : StorageOps σ) (cfg : Config)
    (ip : String) (st : σ) : Except CheckError Unit × σ :=
  match ops.increment st ip 1 with
  | (.error _, st1) => (.error .ipIncrementFailed, st1)
  | (.ok count, st1) =>
    if count > cfg.ipLimit then
      match ops.block st1 ip cfg.blockDuration with
      | (.error _, st2) => (.error .ipBlockFailed, st2)
      | (.ok _, st2) =>
        match ops.reset st2 ip with
        | (.error _, st3) => (.error .ipResetFailed, st3)
        | (.ok _, st3) => (.error .ipLimitExceeded, st3)
    else (.ok (), st1)

/-- The tail of `CheckLimit` after the token block check: the unconditional
`IsBlocked(ip)` check, then the increment phase of the governing dimension. -/
def ipBlockPhase {σ : Type} (ops : StorageOps σ) (cfg : Config)
    (ip token : String) (st : σ) : Except CheckError Unit × σ :=
  match ops.isBlocked st ip with
  | (.error _, st1) => (.error .ipBlockCheckFailed, st1)
  | (.ok true, st1) => (.error .ipBlocked, st1)
  | (.ok false, st1) =>
    if token ≠ "" then tokenIncrPhase ops cfg token st1
    else ipIncrPhase ops cfg ip st1

/-- `(*RateLimiter).CheckLimit(ctx, ip, token)`: token block check when a
token is present, then the IP block check (performed unconditionally in the
source), then the governing dimension's increment phase. `.ok ()` is the
`return nil` (Allow); `.error e` identifies the `return fmt.Errorf` site. -/
def checkLimit {σ : Type} (ops : StorageOps σ) (cfg : Config)
    (ip token : String) (st : σ) : Except CheckError Unit × σ :=
  if token ≠ "" then
    match ops.isBlocked st token with
    | (.error _, st1) => (.error .tokenBlockCheckFailed, st1)
    | (.ok true, st1) => (.error .tokenBlocked, st1)
    | (.ok false, st1) => ipBlockPhase ops cfg ip token st1
  else ipBlockPhase ops cfg ip token st

/-- A storage operation observed at the `Storage` interface, recording the
key it targets; used to instrument the in-memory backend. -/
inductive StorageOp where
  | isBlockedQ (key : String)
  | incrementQ (key : String)
  | blockQ (key : String)
  | resetQ (key : String)
deriving Repr, DecidableEq

/-- The key an observed storage operation targets. -/
def StorageOp.key : StorageOp → String
  | .isBlockedQ k => k
  | .incrementQ k => k
  | .blockQ k => k
  | .resetQ k => k

/-- The in-memory backend instrumented with a trace of the operations
performed, in order; each operation delegates to the mock and appends one
trace entry. -/
def logOps : StorageOps (MockStorage × List StorageOp) :=
  { increment := fun s k d =>
      let p := s.1.increment k d
      (.ok p.1, (p.2, s.2 ++ [.incrementQ k]))
    isBlocked := fun s k => (.ok (s.1.isBlocked k), (s.1, s.2 ++ [.isBlockedQ k]))
    block := fun s k d => (.ok (), (s.1.block k d, s.2 ++ [.blockQ k]))
    reset := fun s k => (.ok (), (s.1.reset k, s.2 ++ [.resetQ k])) }

/-- One `CheckLimit` call on the in-memory backend, returning the result,
the post-state and the trace of storage operations the call performed. -/
def checkLimitRun (cfg : Config) (ip token : String) (m : MockStorage) :
    Except CheckError Unit × MockStorage × List StorageOp :=
  let r := checkLimit logOps cfg ip token (m, [])
  (r.1, r.2.1, r.2.2)

/-- `n` successive `CheckLimit` calls with the same identity, returning the
list of results, the final state and the per-call operation traces. -/
def checkLimitRunN (cfg : Config) (ip token : String) :
    Nat → MockStorage → List (Except CheckError Unit) × MockStorage × List (List StorageOp)
  | 0, m => ([], m, [])
  | n + 1, m =>
    let r := checkLimitRun cfg ip token m
    let rest := checkLimitRunN cfg ip token n r.2.1
    (r.1 :: rest.1, rest.2.1, r.2.2 :: rest.2.2)

/-- The state effect of one successful increment on key `k`. -/
def incrStep (m : MockStorage) (k : String) : MockStorage := (m.increment k 1).2

/-- The state effect of the over-limit branch on key `k`: increment, block,
then reset. -/
def rejectStep (m : MockStorage) (k : String) (d : Int) : MockStorage :=
  ((incrStep m k).block k d).reset k

/-- `n` successive increments on key `k`. -/
def incrN (k : String) : Nat → MockStorage → MockStorage
  | 0, m => m
  | n + 1, m => incrN k n (incrStep m k)

/-- Whether an observed storage operation is an increment. -/
def StorageOp.isIncr : StorageOp → Bool
  | .incrementQ _ => true
  | _ => false

theorem MockStorage.ext_of {m1 m2 : MockStorage} (h1 : m1.counters = m2.counters)
    (h2 : m1.blocked = m2.blocked) (h3 : m1.currentTime = m2.currentTime) :
    m1 = m2 := by
  cases m1; cases m2; simp_all

theorem incrStep_counters_self (m : MockStorage) (k : String) :
    (incrStep m k).counters k = some ((m.counters k).getD 0 + 1) := by
  simp [incrStep, MockStorage.increment]

theorem incrStep_counters_ne (m : MockStorage) {x k : String} (h : x ≠ k) :
    (incrStep m k).counters x = m.counters x := by
  simp [incrStep, MockStorage.increment, h]

theorem incrStep_blocked (m : MockStorage) (k : String) :
    (incrStep m k).blocked = m.blocked := rfl

theorem incrStep_currentTime (m : MockStorage) (k : String) :
    (incrStep m k).currentTime = m.currentTime := rfl

theorem incrStep_isBlocked (m : MockStorage) (k x : String) :
    (incrStep m k).isBlocked x = m.isBlocked x := by
  simp [MockStorage.isBlocked, incrStep_blocked, incrStep_currentTime]

theorem rejectStep_counters_self (m : MockStorage) (k : String) (d : Int) :
    (rejectStep m k d).counters k = none := by
  simp [rejectStep, MockStorage.reset, MockStorage.block]

theorem rejectStep_counters_ne (m : MockStorage) {x k : String} (d : Int) (h : x ≠ k) :
    (rejectStep m k d).counters x = m.counters x := by
  simp [rejectStep, MockStorage.reset, MockStorage.block, h, incrStep_counters_ne m h]

theorem rejectStep_blocked_self (m : MockStorage) (k : String) (d : Int) :
    (rejectStep m k d).blocked k = none := by
  simp [rejectStep, MockStorage.reset, MockStorage.block]

theorem rejectStep_blocked_ne (m : MockStorage) {x k : String} (d : Int) (h : x ≠ k) :
    (rejectStep m k d).blocked x = m.blocked x := by
  simp [rejectStep, MockStorage.reset, MockStorage.block, incrStep, MockStorage.increment, h]

theorem rejectStep_currentTime (m : MockStorage) (k : String) (d : Int) :
    (rejectStep m k d).currentTime = m.currentTime := rfl

/-- A single `CheckLimit` call with an empty token on a non-blocked,
under-limit IP: allowed, one increment on the IP key, trace
`[IsBlocked ip, Increment ip]`. -/
theorem run_addr_allow (cfg : Config) (m : MockStorage) (ip : String)
    (hb : m.isBlocked ip = false)
    (hc : ¬ cfg.ipLimit < (m.counters ip).getD 0 + 1) :
    checkLimitRun cfg ip "" m =
      (.ok (), incrStep m ip, [.isBlockedQ ip, .incrementQ ip]) := by
  simp [checkLimitRun, checkLimit, ipBlockPhase, ipIncrPhase, logOps, incrStep,
    MockStorage.increment, hb, hc]

/-- A single `CheckLimit` call with an empty token on a non-blocked IP whose
incremented count exceeds the IP limit: rejected at the IP-limit return site,
with the increment/block/reset effect. -/
theorem run_addr_reject (cfg : Config) (m : MockStorage) (ip : String)
    (hb : m.isBlocked ip = false)
    (hc : cfg.ipLimit < (m.counters ip).getD 0 + 1) :
    checkLimitRun cfg ip "" m =
      (.error .ipLimitExceeded, rejectStep m ip cfg.blockDuration,
        [.isBlockedQ ip, .incrementQ ip, .blockQ ip, .resetQ ip]) := by
  simp [checkLimitRun, checkLimit, ipBlockPhase, ipIncrPhase, logOps, rejectStep,
    incrStep, MockStorage.increment, hb, hc]

/-- A single `CheckLimit` call with an empty token on a blocked IP: rejected
at the IP-blocked return site, no state change. -/
theorem run_addr_blocked (cfg : Config) (m : MockStorage) (ip : String)
    (hb : m.isBlocked ip = true) :
    checkLimitRun cfg ip "" m = (.error .ipBlocked, m, [.isBlockedQ ip]) := by
  simp [checkLimitRun, checkLimit, ipBlockPhase, logOps, hb]

/-- A single `CheckLimit` call with a non-empty, blocked token: rejected at
the token-blocked return site, no state change, only the token queried. -/
theorem run_token_blocked (cfg : Config) (m : MockStorage) (ip tok : String)
    (ht : tok ≠ "") (hb : m.isBlocked tok = true) :
    checkLimitRun cfg ip tok m = (.error .tokenBlocked, m, [.isBlockedQ tok]) := by
  simp [checkLimitRun, checkLimit, logOps, ht, hb]

/-- A single `CheckLimit` call with a non-empty, unblocked token but a
blocked IP: rejected at the IP-blocked return site even though a token is
present. -/
theorem run_token_ipBlocked (cfg : Config) (m : MockStorage) (ip tok : String)
    (ht : tok ≠ "") (hbt : m.isBlocked tok = false) (hbi : m.isBlocked ip = true) :
    checkLimitRun cfg ip tok m =
      (.error .ipBlocked, m, [.isBlockedQ tok, .isBlockedQ ip]) := by
  simp [checkLimitRun, checkLimit, ipBlockPhase, logOps, ht, hbt, hbi]

/-- A single `CheckLimit` call with a non-empty token, neither key blocked,
token under limit: allowed, one increment on the token key. -/
theorem run_token_allow (cfg : Config) (m : MockStorage) (ip tok : String)
    (ht : tok ≠ "") (hbt : m.isBlocked tok = false) (hbi : m.isBlocked ip = false)
    (hc : ¬ cfg.tokenLimit < (m.counters tok).getD 0 + 1) :
    checkLimitRun cfg ip tok m =
      (.ok (), incrStep m tok, [.isBlockedQ tok, .isBlockedQ ip, .incrementQ tok]) := by
  simp [checkLimitRun, checkLimit, ipBlockPhase, tokenIncrPhase, logOps, incrStep,
    MockStorage.increment, ht, hbt, hbi, hc]

/-- A single `CheckLimit` call with a non-empty token, neither key blocked,
token over limit: rejected at the token-limit return site, with the
increment/block/reset effect on the token key. -/
theorem run_token_reject (cfg : Config) (m : MockStorage) (ip tok : String)
    (ht : tok ≠ "") (hbt : m.isBlocked tok = false) (hbi : m.isBlocked ip = false)
    (hc : cfg.tokenLimit < (m.counters tok).getD 0 + 1) :
    checkLimitRun cfg ip tok m =
      (.error .tokenLimitExceeded, rejectStep m tok cfg.blockDuration,
        [.isBlockedQ tok, .isBlockedQ ip, .incrementQ tok, .blockQ tok, .resetQ tok]) := by
  simp [checkLimitRun, checkLimit, ipBlockPhase, tokenIncrPhase, logOps, rejectStep,
    incrStep, MockStorage.increment, ht, hbt, hbi, hc]

theorem incrN_counters_self (k : String) :
    ∀ (n : Nat) (m : MockStorage),
      (incrN k n m).counters k =
        if n = 0 then m.counters k else some ((m.counters k).getD 0 + n) := by
  intro n
  induction n with
  | zero => intro m; simp [incrN]
  | succ n ih =>
    intro m
    simp only [incrN, ih, incrStep_counters_self]
    by_cases hn : n = 0
    · simp [hn]
    · simp only [hn, if_false, Nat.succ_ne_zero, Option.getD_some]
      congr 1
      push_cast
      ring

theorem incrN_counters_ne (k : String) {x : String} (h : x ≠ k) :
    ∀ (n : Nat) (m : MockStorage), (incrN k n m).counters x = m.counters x := by
  intro n
  induction n with
  | zero => intro m; rfl
  | succ n ih => intro m; simp [incrN, ih, incrStep_counters_ne _ h]

theorem incrN_blocked (k : String) :
    ∀ (n : Nat) (m : MockStorage), (incrN k n m).blocked = m.blocked := by
  intro n
  induction n with
  | zero => intro m; rfl
  | succ n ih => intro m; simp [incrN, ih, incrStep_blocked]

theorem incrN_currentTime (k : String) :
    ∀ (n : Nat) (m : MockStorage), (incrN k n m).currentTime = m.currentTime := by
  intro n
  induction n with
  | zero => intro m; rfl
  | succ n ih => intro m; simp [incrN, ih, incrStep_currentTime]

theorem incrN_isBlocked (k : String) (n : Nat) (m : MockStorage) (x : String) :
    (incrN k n m).isBlocked x = m.isBlocked x := by
  simp [MockStorage.isBlocked, incrN_blocked, incrN_currentTime]

/-- `n` address-dimension calls on a non-blocked key, all of whose
incremented counts stay within the IP limit: all allowed, the state is `n`
increments on the key, and each call's trace is one block query followed by
one increment. -/
theorem runN_addr_allow (cfg : Config) (k : String) :
    ∀ (n : Nat) (m : MockStorage), m.isBlocked k = false →
      ¬ cfg.ipLimit < (m.counters k).getD 0 + n →
      checkLimitRunN cfg k "" n m =
        (List.replicate n (.ok ()), incrN k n m,
          List.replicate n [.isBlockedQ k, .incrementQ k]) := by
  intro n
  induction n with
  | zero => intro m _ _; rfl
  | succ n ih =>
    intro m hb hc
    have hc1 : ¬ cfg.ipLimit < (m.counters k).getD 0 + 1 := by
      intro h; exact hc (by push_cast; omega)
    have hstep := run_addr_allow cfg m k hb hc1
    have hb' : (incrStep m k).isBlocked k = false := by
      rw [incrStep_isBlocked]; exact hb
    have hc' : ¬ cfg.ipLimit < ((incrStep m k).counters k).getD 0 + n := by
      rw [incrStep_counters_self]
      intro h
      simp only [Option.getD_some] at h
      exact hc (by push_cast at h ⊢; omega)
    have hrest := ih (incrStep m k) hb' hc'
    simp [checkLimitRunN, hstep, hrest, incrN, List.replicate_succ]

/-- `n` token-dimension calls with a fixed non-empty token, neither the token
nor the IP blocked, all incremented counts within the token limit: all
allowed, the state is `n` increments on the token key. -/
theorem runN_token_allow (cfg : Config) (ip tok : String) (ht : tok ≠ "") :
    ∀ (n : Nat) (m : MockStorage), m.isBlocked tok = false →
      m.isBlocked ip = false →
      ¬ cfg.tokenLimit < (m.counters tok).getD 0 + n →
      checkLimitRunN cfg ip tok n m =
        (List.replicate n (.ok ()), incrN tok n m,
          List.replicate n [.isBlockedQ tok, .isBlockedQ ip, .incrementQ tok]) := by
  intro n
  induction n with
  | zero => intro m _ _ _; rfl
  | succ n ih =>
    intro m hbt hbi hc
    have hc1 : ¬ cfg.tokenLimit < (m.counters tok).getD 0 + 1 := by
      intro h; exact hc (by push_cast; omega)
    have hstep := run_token_allow cfg m ip tok ht hbt hbi hc1
    have hbt' : (incrStep m tok).isBlocked tok = false := by
      rw [incrStep_isBlocked]; exact hbt
    have hbi' : (incrStep m tok).isBlocked ip = false := by
      rw [incrStep_isBlocked]; exact hbi
    have hc' : ¬ cfg.tokenLimit < ((incrStep m tok).counters tok).getD 0 + n := by
      rw [incrStep_counters_self]
      intro h
      simp only [Option.getD_some] at h
      exact hc (by push_cast at h ⊢; omega)
    have hrest := ih (incrStep m tok) hbt' hbi' hc'
    simp [checkLimitRunN, hstep, hrest, incrN, List.replicate_succ]

theorem checkLimitRunN_add (cfg : Config) (ip tok : String) (a b : Nat) :
    ∀ m : MockStorage,
      checkLimitRunN cfg ip tok (a + b) m =
        ((checkLimitRunN cfg ip tok a m).1 ++
           (checkLimitRunN cfg ip tok b (checkLimitRunN cfg ip tok a m).2.1).1,
         (checkLimitRunN cfg ip tok b (checkLimitRunN cfg ip tok a m).2.1).2.1,
         (checkLimitRunN cfg ip tok a m).2.2 ++
           (checkLimitRunN cfg ip tok b (checkLimitRunN cfg ip tok a m).2.1).2.2) := by
  induction a with
  | zero => intro m; simp [checkLimitRunN]
  | succ a ih =>
    intro m
    have : a + 1 + b = (a + b) + 1 := by omega
    rw [this]
    simp only [checkLimitRunN, ih]
    simp

theorem rejectStep_incrN_fresh (k : String) (t0 d : Int) (N : Nat) :
    rejectStep (incrN k N (newMockStorage t0)) k d = newMockStorage t0 := by
  apply MockStorage.ext_of
  · funext x
    by_cases hx : x = k
    · subst hx; rw [rejectStep_counters_self]; rfl
    · rw [rejectStep_counters_ne _ _ hx, incrN_counters_ne _ hx]
  · funext x
    by_cases hx : x = k
    · subst hx; rw [rejectStep_blocked_self]; rfl
    · rw [rejectStep_blocked_ne _ _ hx, incrN_blocked]
  · rw [rejectStep_currentTime, incrN_currentTime]

theorem fresh_isBlocked (t0 : Int) (x : String) :
    (newMockStorage t0).isBlocked x = false := rfl

theorem incrN_fresh_getD (k : String) (t0 : Int) (N : Nat) :
    ((incrN k N (newMockStorage t0)).counters k).getD 0 = (N : Int) := by
  rw [incrN_counters_self]
  by_cases hN : N = 0
  · simp [hN, newMockStorage]
  · simp [hN, newMockStorage]

/-- A full address-dimension window cycle from a fresh store with
`ipLimit = N`: the first `N` calls are admitted, the `(N+1)`-th is rejected
at the IP-limit site, and the final state is again the fresh store (the
block set by the over-limit call is immediately deleted by the reset). -/
theorem runCycle_addr (cfg : Config) (k : String) (t0 : Int) (N : Nat)
    (hip : cfg.ipLimit = (N : Int)) :
    checkLimitRunN cfg k "" (N + 1) (newMockStorage t0) =
      (List.replicate N (.ok ()) ++ [.error .ipLimitExceeded],
       newMockStorage t0,
       List.replicate N [.isBlockedQ k, .incrementQ k] ++
         [[.isBlockedQ k, .incrementQ k, .blockQ k, .resetQ k]]) := by
  have h1 := runN_addr_allow cfg k N (newMockStorage t0) (fresh_isBlocked t0 k)
    (by simp [newMockStorage, hip])
  have hbl : (incrN k N (newMockStorage t0)).isBlocked k = false := by
    rw [incrN_isBlocked]; rfl
  have hc : cfg.ipLimit < ((incrN k N (newMockStorage t0)).counters k).getD 0 + 1 := by
    rw [incrN_fresh_getD, hip]; omega
  have h2 := run_addr_reject cfg (incrN k N (newMockStorage t0)) k hbl hc
  rw [checkLimitRunN_add cfg k "" N 1, h1]
  simp only [checkLimitRunN, h2, rejectStep_incrN_fresh]

/-- A full token-dimension window cycle from a fresh store with
`tokenLimit = N` and a non-empty token: the first `N` calls are admitted,
the `(N+1)`-th is rejected at the token-limit site, and the final state is
again the fresh store. -/
theorem runCycle_token (cfg : Config) (ip tok : String) (t0 : Int) (N : Nat)
    (ht : tok ≠ "") (htl : cfg.tokenLimit = (N : Int)) :
    checkLimitRunN cfg ip tok (N + 1) (newMockStorage t0) =
      (List.replicate N (.ok ()) ++ [.error .tokenLimitExceeded],
       newMockStorage t0,
       List.replicate N [.isBlockedQ tok, .isBlockedQ ip, .incrementQ tok] ++
         [[.isBlockedQ tok, .isBlockedQ ip, .incrementQ tok, .blockQ tok, .resetQ tok]]) := by
  have h1 := runN_token_allow cfg ip tok ht N (newMockStorage t0)
    (fresh_isBlocked t0 tok) (fresh_isBlocked t0 ip)
    (by simp [newMockStorage, htl])
  have hblt : (incrN tok N (newMockStorage t0)).isBlocked tok = false := by
    rw [incrN_isBlocked]; rfl
  have hbli : (incrN tok N (newMockStorage t0)).isBlocked ip = false := by
    rw [incrN_isBlocked]; rfl
  have hc : cfg.tokenLimit < ((incrN tok N (newMockStorage t0)).counters tok).getD 0 + 1 := by
    rw [incrN_fresh_getD, htl]; omega
  have h2 := run_token_reject cfg (incrN tok N (newMockStorage t0)) ip tok ht hblt hbli hc
  rw [checkLimitRunN_add cfg ip tok N 1, h1]
  simp only [checkLimitRunN, h2, rejectStep_incrN_fresh]

theorem advanceTime_fresh (t0 d : Int) :
    (newMockStorage t0).advanceTime d = newMockStorage (t0 + d) := rfl

/-- C1: the claim predicts that a request made immediately after the
limit-exceeding one is rejected with AddressBlocked. The code evaluated at
the claim's own scenario (limit 5, block 300, address "1.2.3.4", seven
immediate requests) instead ADMITS the seventh request: the `Reset` issued
right after `Block` deletes the block entry as well, so no block survives
the rejecting call, and the address restarts a fresh window with count 1. -/
theorem c1_no_block_after_limit :
    (checkLimitRunN ⟨5, 10, 300⟩ "1.2.3.4" "" 7 (newMockStorage 0)).1 =
      [.ok (), .ok (), .ok (), .ok (), .ok (), .error .ipLimitExceeded, .ok ()] ∧
    (checkLimitRunN ⟨5, 10, 300⟩ "1.2.3.4" "" 7 (newMockStorage 0)).2.1.counters "1.2.3.4" =
      some 1 ∧
    (checkLimitRunN ⟨5, 10, 300⟩ "1.2.3.4" "" 6 (newMockStorage 0)).2.1.blocked "1.2.3.4" =
      none := by
  refine ⟨rfl, rfl, rfl⟩

/-- C3: for either dimension's key, from a fresh store, with N the governing
configured limit, the first N calls are admitted and the (N+1)-th is
rejected with the corresponding *LimitExceeded reason; every call (admitted
or rejected) performs exactly one Increment, and after the i-th admitted
call the key's counter is exactly i. -/
theorem c3_window_counting (cfg : Config) (N : Nat) (k ip : String) (t0 : Int) :
    (cfg.ipLimit = (N : Int) →
      (checkLimitRunN cfg k "" (N + 1) (newMockStorage t0)).1 =
          List.replicate N (.ok ()) ++ [.error .ipLimitExceeded]
        ∧ (∀ l ∈ (checkLimitRunN cfg k "" (N + 1) (newMockStorage t0)).2.2,
            l.countP StorageOp.isIncr = 1)
        ∧ (∀ i : Nat, i ≤ N →
            (checkLimitRunN cfg k "" i (newMockStorage t0)).2.1.counters k =
              if i = 0 then none else some (i : Int)))
    ∧ (cfg.tokenLimit = (N : Int) → k ≠ "" →
      (checkLimitRunN cfg ip k (N + 1) (newMockStorage t0)).1 =
          List.replicate N (.ok ()) ++ [.error .tokenLimitExceeded]
        ∧ (∀ l ∈ (checkLimitRunN cfg ip k (N + 1) (newMockStorage t0)).2.2,
            l.countP StorageOp.isIncr = 1)
        ∧ (∀ i : Nat, i ≤ N →
            (checkLimitRunN cfg ip k i (newMockStorage t0)).2.1.counters k =
              if i = 0 then none else some (i : Int))) := by
  constructor
  · intro hip
    refine ⟨?_, ?_, ?_⟩
    · rw [runCycle_addr cfg k t0 N hip]
    · rw [runCycle_addr cfg k t0 N hip]
      intro l hl
      simp only [List.mem_append, List.mem_replicate, List.mem_singleton] at hl
      rcases hl with ⟨_, rfl⟩ | rfl <;>
        simp [List.countP_cons, List.countP_nil, StorageOp.isIncr]
    · intro i hi
      have h := runN_addr_allow cfg k i (newMockStorage t0) (fresh_isBlocked t0 k)
        (by simp [newMockStorage, hip]; omega)
      rw [h]
      rw [incrN_counters_self]
      by_cases h0 : i = 0
      · simp [h0, newMockStorage]
      · simp [h0, newMockStorage]
  · intro htl hk
    refine ⟨?_, ?_, ?_⟩
    · rw [runCycle_token cfg ip k t0 N hk htl]
    · rw [runCycle_token cfg ip k t0 N hk htl]
      intro l hl
      simp only [List.mem_append, List.mem_replicate, List.mem_singleton] at hl
      rcases hl with ⟨_, rfl⟩ | rfl <;>
        simp [List.countP_cons, List.countP_nil, StorageOp.isIncr]
    · intro i hi
      have h := runN_token_allow cfg ip k hk i (newMockStorage t0)
        (fresh_isBlocked t0 k) (fresh_isBlocked t0 ip)
        (by simp [newMockStorage, htl]; omega)
      rw [h]
      rw [incrN_counters_self]
      by_cases h0 : i = 0
      · simp [h0, newMockStorage]
      · simp [h0, newMockStorage]

/-- Witness for C3 at limit 2, key "1.2.3.4" (address dimension) and token
"abc" (token dimension), from a fresh store. -/
theorem c3_window_counting_witness :
    ((⟨2, 2, 300⟩ : Config).ipLimit = ((2 : Nat) : Int)
      ∧ (⟨2, 2, 300⟩ : Config).tokenLimit = ((2 : Nat) : Int)
      ∧ ("abc" : String) ≠ "")
    ∧ (checkLimitRunN ⟨2, 2, 300⟩ "1.2.3.4" "" 3 (newMockStorage 0)).1 =
        List.replicate 2 (.ok ()) ++ [.error .ipLimitExceeded]
    ∧ (checkLimitRunN ⟨2, 2, 300⟩ "1.2.3.4" "" 2 (newMockStorage 0)).2.1.counters "1.2.3.4" =
        (if (2 : Nat) = 0 then none else some ((2 : Nat) : Int))
    ∧ (checkLimitRunN ⟨2, 2, 300⟩ "9.9.9.9" "abc" 3 (newMockStorage 0)).1 =
        List.replicate 2 (.ok ()) ++ [.error .tokenLimitExceeded] := by
  have h := c3_window_counting ⟨2, 2, 300⟩ 2 "1.2.3.4" "9.9.9.9" 0
  have h' := c3_window_counting ⟨2, 2, 300⟩ 2 "abc" "9.9.9.9" 0
  exact ⟨⟨by norm_num, by norm_num, by decide⟩,
    (h.1 (by norm_num)).1,
    (h.1 (by norm_num)).2.2 2 (by omega),
    (h'.2 (by norm_num) (by decide)).1⟩

/-- C8: after a full window cycle ending in a limit-triggered block on a key
(either dimension), advancing the clock by the configured block duration and
making one more call yields an admitted request, and the key's counter after
that call is exactly 1: the Reset at block time removed the window counter
entirely, so the key starts a fresh window. -/
theorem c8_fresh_window_after_block (cfg : Config) (N : Nat) (k ip : String)
    (t0 : Int) (hN : 1 ≤ N) :
    (cfg.ipLimit = (N : Int) →
      (checkLimitRun cfg k ""
          (((checkLimitRunN cfg k "" (N + 1) (newMockStorage t0)).2.1).advanceTime
            cfg.blockDuration)).1 = .ok ()
      ∧ (checkLimitRun cfg k ""
          (((checkLimitRunN cfg k "" (N + 1) (newMockStorage t0)).2.1).advanceTime
            cfg.blockDuration)).2.1.counters k = some 1)
    ∧ (cfg.tokenLimit = (N : Int) → k ≠ "" →
      (checkLimitRun cfg ip k
          (((checkLimitRunN cfg ip k (N + 1) (newMockStorage t0)).2.1).advanceTime
            cfg.blockDuration)).1 = .ok ()
      ∧ (checkLimitRun cfg ip k
          (((checkLimitRunN cfg ip k (N + 1) (newMockStorage t0)).2.1).advanceTime
            cfg.blockDuration)).2.1.counters k = some 1) := by
  constructor
  · intro hip
    have hcyc := runCycle_addr cfg k t0 N hip
    rw [hcyc]
    have hstep := run_addr_allow cfg (newMockStorage (t0 + cfg.blockDuration)) k
      (fresh_isBlocked _ k) (by simp [newMockStorage, hip]; omega)
    constructor
    · show (checkLimitRun cfg k ""
        ((newMockStorage t0).advanceTime cfg.blockDuration)).1 = .ok ()
      rw [advanceTime_fresh, hstep]
    · show (checkLimitRun cfg k ""
        ((newMockStorage t0).advanceTime cfg.blockDuration)).2.1.counters k = some 1
      rw [advanceTime_fresh, hstep]
      simp [incrStep_counters_self, newMockStorage]
  · intro htl hk
    have hcyc := runCycle_token cfg ip k t0 N hk htl
    rw [hcyc]
    have hstep := run_token_allow cfg (newMockStorage (t0 + cfg.blockDuration)) ip k
      hk (fresh_isBlocked _ k) (fresh_isBlocked _ ip)
      (by simp [newMockStorage, htl]; omega)
    constructor
    · show (checkLimitRun cfg ip k
        ((newMockStorage t0).advanceTime cfg.blockDuration)).1 = .ok ()
      rw [advanceTime_fresh, hstep]
    · show (checkLimitRun cfg ip k
        ((newMockStorage t0).advanceTime cfg.blockDuration)).2.1.counters k = some 1
      rw [advanceTime_fresh, hstep]
      simp [incrStep_counters_self, newMockStorage]

/-- Witness for C8 at limit 5, block duration 300, address "1.2.3.4" and
token "abc". -/
theorem c8_fresh_window_after_block_witness :
    ((⟨5, 5, 300⟩ : Config).ipLimit = ((5 : Nat) : Int)
      ∧ (⟨5, 5, 300⟩ : Config).tokenLimit = ((5 : Nat) : Int)
      ∧ (1 : Nat) ≤ 5 ∧ ("abc" : String) ≠ "")
    ∧ (checkLimitRun ⟨5, 5, 300⟩ "1.2.3.4" ""
        (((checkLimitRunN ⟨5, 5, 300⟩ "1.2.3.4" "" 6 (newMockStorage 0)).2.1).advanceTime
          300)).1 = .ok ()
    ∧ (checkLimitRun ⟨5, 5, 300⟩ "9.9.9.9" "abc"
        (((checkLimitRunN ⟨5, 5, 300⟩ "9.9.9.9" "abc" 6 (newMockStorage 0)).2.1).advanceTime
          300)).2.1.counters "abc" = some 1 := by
  have h1 := (c8_fresh_window_after_block ⟨5, 5, 300⟩ 5 "1.2.3.4" "9.9.9.9" 0
    (by omega)).1 (by norm_num)
  have h2 := (c8_fresh_window_after_block ⟨5, 5, 300⟩ 5 "abc" "9.9.9.9" 0
    (by omega)).2 (by norm_num) (by decide)
  exact ⟨⟨by norm_num, by norm_num, by omega, by decide⟩, h1.1, h2.2⟩

/-- C9: `Block(key, duration)` on the in-memory backend sets the key's block
expiry to exactly `currentTime + duration` for every prior state,
overwriting rather than extending any existing entry, leaves every other
key's entry untouched, and is idempotent: blocking twice in succession
leaves the same state as blocking once. -/
theorem c9_block_overwrites (m : MockStorage) (k : String) (d : Int) :
    (m.block k d).blocked k = some (m.currentTime + d)
    ∧ (∀ x, x ≠ k → (m.block k d).blocked x = m.blocked x)
    ∧ (m.block k d).block k d = m.block k d := by
  refine ⟨by simp [MockStorage.block], fun x hx => by simp [MockStorage.block, hx], ?_⟩
  apply MockStorage.ext_of
  · rfl
  · funext x
    by_cases hx : x = k <;> simp [MockStorage.block, hx]
  · rfl

/-- A storage state in which address "1.2.3.4" holds a live block entry
(expiry 300, clock 0) and nothing else is set. -/
def blockedAddrState : MockStorage := (newMockStorage 0).block "1.2.3.4" 300

/-- C2 counterexample: with the non-empty, unblocked token "tok", a Decide
call from address "1.2.3.4" still queries IsBlocked("1.2.3.4") — the query
appears in the storage trace — and, the address being block-listed, the call
is rejected at the AddressBlocked return site, contradicting the claim that
the address dimension is never consulted when a token is present. -/
theorem c2_counterexample :
    ("tok" : String) ≠ ""
    ∧ blockedAddrState.isBlocked "tok" = false
    ∧ (checkLimitRun ⟨5, 10, 300⟩ "1.2.3.4" "tok" blockedAddrState).2.2 =
        [.isBlockedQ "tok", .isBlockedQ "1.2.3.4"]
    ∧ (checkLimitRun ⟨5, 10, 300⟩ "1.2.3.4" "tok" blockedAddrState).1 =
        .error .ipBlocked := by
  exact ⟨by decide, rfl, rfl, rfl⟩

/-- C2 amended: with a non-empty token, Decide consults the token dimension
AND additionally performs the IsBlocked(address) query (rejecting with
AddressBlocked when the address is block-listed); apart from that single
read-only query, every storage operation of the call targets the token key,
and no state outside the token key is modified. -/
theorem c2_amended_token_path_scope (cfg : Config) (m : MockStorage)
    (ip tok : String) (ht : tok ≠ "") :
    (∀ op ∈ (checkLimitRun cfg ip tok m).2.2, op = .isBlockedQ ip ∨ op.key = tok)
    ∧ (∀ x, x ≠ tok →
        (checkLimitRun cfg ip tok m).2.1.counters x = m.counters x
        ∧ (checkLimitRun cfg ip tok m).2.1.blocked x = m.blocked x) := by
  cases hbt : m.isBlocked tok
  · cases hbi : m.isBlocked ip
    · by_cases hc : cfg.tokenLimit < (m.counters tok).getD 0 + 1
      · rw [run_token_reject cfg m ip tok ht hbt hbi hc]
        constructor
        · intro op hop
          simp only [List.mem_cons, List.not_mem_nil, or_false] at hop
          rcases hop with rfl | rfl | rfl | rfl | rfl <;>
            simp [StorageOp.key]
        · intro x hx
          exact ⟨rejectStep_counters_ne m _ hx, rejectStep_blocked_ne m _ hx⟩
      · rw [run_token_allow cfg m ip tok ht hbt hbi hc]
        constructor
        · intro op hop
          simp only [List.mem_cons, List.not_mem_nil, or_false] at hop
          rcases hop with rfl | rfl | rfl <;> simp [StorageOp.key]
        · intro x hx
          exact ⟨incrStep_counters_ne m hx, by rw [incrStep_blocked]⟩
    · rw [run_token_ipBlocked cfg m ip tok ht hbt hbi]
      constructor
      · intro op hop
        simp only [List.mem_cons, List.not_mem_nil, or_false] at hop
        rcases hop with rfl | rfl <;> simp [StorageOp.key]
      · exact fun x _ => ⟨rfl, rfl⟩
  · rw [run_token_blocked cfg m ip tok ht hbt]
    constructor
    · intro op hop
      simp only [List.mem_cons, List.not_mem_nil, or_false] at hop
      rcases hop with rfl
      simp [StorageOp.key]
    · exact fun x _ => ⟨rfl, rfl⟩

/-- Witness for C2's amended theorem: a call with token "tok" from the
blocked address "1.2.3.4" leaves the address's counter and block entries
exactly as they were. -/
theorem c2_amended_token_path_scope_witness :
    ("tok" : String) ≠ ""
    ∧ ("1.2.3.4" : String) ≠ "tok"
    ∧ (checkLimitRun ⟨5, 10, 300⟩ "1.2.3.4" "tok" blockedAddrState).2.1.counters "1.2.3.4" =
        blockedAddrState.counters "1.2.3.4"
    ∧ (checkLimitRun ⟨5, 10, 300⟩ "1.2.3.4" "tok" blockedAddrState).2.1.blocked "1.2.3.4" =
        blockedAddrState.blocked "1.2.3.4" := by
  have h := (c2_amended_token_path_scope ⟨5, 10, 300⟩ blockedAddrState "1.2.3.4" "tok"
    (by decide)).2 "1.2.3.4" (by decide)
  exact ⟨by decide, by decide, h.1, h.2⟩

/-- A conforming `Storage` backend whose `Reset` always fails with a
storage error (the interface's `error` return), all other operations
behaving as the in-memory backend; used to exercise the engine's
error-handling paths, which the engine must handle for any backend. -/
def resetFailOps : StorageOps MockStorage :=
  { mockOps with reset := fun m _ => (.error (), m) }

/-- C4 counterexample: a Decide call through a backend whose Reset fails:
the token "tok" exceeds its limit (0), the Block call succeeds, the Reset
call fails — and the call's result is the storage-failure return of the
failed Reset, not TokenLimitExceeded as the claim states. -/
theorem c4_counterexample :
    (checkLimit resetFailOps ⟨5, 0, 300⟩ "1.2.3.4" "tok" (newMockStorage 0)).1 =
      .error .tokenResetFailed
    ∧ (resetFailOps.block (incrStep (newMockStorage 0) "tok") "tok" 300).1 = .ok ()
    ∧ CheckError.tokenResetFailed ≠ CheckError.tokenLimitExceeded := by
  exact ⟨rfl, rfl, by decide⟩

/-- C4 amended: in a Decide call whose Increment returns a count above the
governing limit — the token limit when a token is present, the IP limit on a
tokenless call — the result is the corresponding *LimitExceeded only when
BOTH the Block call and the subsequent Reset call succeed; a failing Block
surfaces as the block-failure storage error, and a failing Reset surfaces as
the reset-failure storage error (not *LimitExceeded). Both dimensions are
covered: the first three parts are the token path, the last three the
address (empty-token) path. -/
theorem c4_amended_reset_failure_surfaces {σ : Type} (ops : StorageOps σ)
    (cfg : Config) (ip tok : String) (st : σ) :
    (∀ (st1 st2 st3 st4 st5 : σ) (c : Int), tok ≠ "" →
        ops.isBlocked st tok = (.ok false, st1) →
        ops.isBlocked st1 ip = (.ok false, st2) →
        ops.increment st2 tok 1 = (.ok c, st3) →
        cfg.tokenLimit < c →
        ops.block st3 tok cfg.blockDuration = (.ok (), st4) →
        ops.reset st4 tok = (.error (), st5) →
        checkLimit ops cfg ip tok st = (.error .tokenResetFailed, st5))
    ∧ (∀ (st1 st2 st3 st4 st5 : σ) (c : Int), tok ≠ "" →
        ops.isBlocked st tok = (.ok false, st1) →
        ops.isBlocked st1 ip = (.ok false, st2) →
        ops.increment st2 tok 1 = (.ok c, st3) →
        cfg.tokenLimit < c →
        ops.block st3 tok cfg.blockDuration = (.ok (), st4) →
        ops.reset st4 tok = (.ok (), st5) →
        checkLimit ops cfg ip tok st = (.error .tokenLimitExceeded, st5))
    ∧ (∀ (st1 st2 st3 st4 : σ) (c : Int), tok ≠ "" →
        ops.isBlocked st tok = (.ok false, st1) →
        ops.isBlocked st1 ip = (.ok false, st2) →
        ops.increment st2 tok 1 = (.ok c, st3) →
        cfg.tokenLimit < c →
        ops.block st3 tok cfg.blockDuration = (.error (), st4) →
        checkLimit ops cfg ip tok st = (.error .tokenBlockFailed, st4))
    ∧ (∀ (st1 st2 st3 st4 : σ) (c : Int), tok = "" →
        ops.isBlocked st ip = (.ok false, st1) →
        ops.increment st1 ip 1 = (.ok c, st2) →
        cfg.ipLimit < c →
        ops.block st2 ip cfg.blockDuration = (.ok (), st3) →
        ops.reset st3 ip = (.error (), st4) →
        checkLimit ops cfg ip tok st = (.error .ipResetFailed, st4))
    ∧ (∀ (st1 st2 st3 st4 : σ) (c : Int), tok = "" →
        ops.isBlocked st ip = (.ok false, st1) →
        ops.increment st1 ip 1 = (.ok c, st2) →
        cfg.ipLimit < c →
        ops.block st2 ip cfg.blockDuration = (.ok (), st3) →
        ops.reset st3 ip = (.ok (), st4) →
        checkLimit ops cfg ip tok st = (.error .ipLimitExceeded, st4))
    ∧ (∀ (st1 st2 st3 : σ) (c : Int), tok = "" →
        ops.isBlocked st ip = (.ok false, st1) →
        ops.increment st1 ip 1 = (.ok c, st2) →
        cfg.ipLimit < c →
        ops.block st2 ip cfg.blockDuration = (.error (), st3) →
        checkLimit ops cfg ip tok st = (.error .ipBlockFailed, st3)) := by
  refine ⟨?_, ?_, ?_, ?_, ?_, ?_⟩
  · intro st1 st2 st3 st4 st5 c ht h1 h2 h3 hc hb hr
    simp [checkLimit, ipBlockPhase, tokenIncrPhase, ht, h1, h2, h3, hc, hb, hr]
  · intro st1 st2 st3 st4 st5 c ht h1 h2 h3 hc hb hr
    simp [checkLimit, ipBlockPhase, tokenIncrPhase, ht, h1, h2, h3, hc, hb, hr]
  · intro st1 st2 st3 st4 c ht h1 h2 h3 hc hb
    simp [checkLimit, ipBlockPhase, tokenIncrPhase, ht, h1, h2, h3, hc, hb]
  · intro st1 st2 st3 st4 c ht h1 h2 hc hb hr
    simp [checkLimit, ipBlockPhase, ipIncrPhase, ht, h1, h2, hc, hb, hr]
  · intro st1 st2 st3 st4 c ht h1 h2 hc hb hr
    simp [checkLimit, ipBlockPhase, ipIncrPhase, ht, h1, h2, hc, hb, hr]
  · intro st1 st2 st3 c ht h1 h2 hc hb
    simp [checkLimit, ipBlockPhase, ipIncrPhase, ht, h1, h2, hc, hb]

/-- Witness for C4's amended theorem through the reset-failing backend, in
both dimensions: a token call with over-limit token "tok" and a tokenless
call from the over-limit address "1.2.3.4" each end in the corresponding
reset-failure storage error after a successful Block. -/
theorem c4_amended_reset_failure_surfaces_witness :
    ("tok" : String) ≠ ""
    ∧ checkLimit resetFailOps ⟨5, 0, 300⟩ "1.2.3.4" "tok" (newMockStorage 0) =
        (.error .tokenResetFailed, (incrStep (newMockStorage 0) "tok").block "tok" 300)
    ∧ checkLimit resetFailOps ⟨0, 5, 300⟩ "1.2.3.4" "" (newMockStorage 0) =
        (.error .ipResetFailed,
          (incrStep (newMockStorage 0) "1.2.3.4").block "1.2.3.4" 300) := by
  refine ⟨by decide, ?_, ?_⟩
  · exact (c4_amended_reset_failure_surfaces resetFailOps ⟨5, 0, 300⟩ "1.2.3.4" "tok"
      (newMockStorage 0)).1 (newMockStorage 0) (newMockStorage 0)
      (incrStep (newMockStorage 0) "tok")
      ((incrStep (newMockStorage 0) "tok").block "tok" 300)
      ((incrStep (newMockStorage 0) "tok").block "tok" 300) 1
      (by decide) rfl rfl rfl (by norm_num) rfl rfl
  · exact (c4_amended_reset_failure_surfaces resetFailOps ⟨0, 5, 300⟩ "1.2.3.4" ""
      (newMockStorage 0)).2.2.2.1 (newMockStorage 0)
      (incrStep (newMockStorage 0) "1.2.3.4")
      ((incrStep (newMockStorage 0) "1.2.3.4").block "1.2.3.4" 300)
      ((incrStep (newMockStorage 0) "1.2.3.4").block "1.2.3.4" 300) 1
      rfl rfl rfl (by norm_num) rfl rfl

/-- C5 counterexample: on the in-memory backend, increment key "k" once
(1-second window), advance the clock by 10 seconds — far past any 1-second
window — and increment again: the call returns 2, not 1, because the mock's
Increment ignores the expiration argument entirely. -/
theorem c5_counterexample :
    ((((newMockStorage 0).increment "k" 1).2.advanceTime 10).currentTime = 10)
    ∧ ((((newMockStorage 0).increment "k" 1).2.advanceTime 10).increment "k" 1).1 = 2
    ∧ (2 : Int) ≠ 1 := by
  exact ⟨rfl, rfl, by decide⟩

/-- C5 amended: the in-memory backend's Increment ignores both the
expiration argument and the backend's clock: its result and state effect are
identical for every expiration value and after any time advance, and the
returned count is always the prior count plus one — counters never expire
and are cleared only by Reset. -/
theorem c5_amended_mock_ignores_expiry (m : MockStorage) (k : String)
    (d d' t : Int) :
    m.increment k d = m.increment k d'
    ∧ ((m.advanceTime t).increment k d).1 = (m.increment k d).1
    ∧ (m.increment k d).1 = (m.counters k).getD 0 + 1 := by
  exact ⟨rfl, rfl, rfl⟩

/-- The values returned by `n` increments of key `k`, in linearization
order. Each `Increment` of the in-memory backend executes atomically under
the backend's mutex, so any concurrent execution of `n` calls on `k` is
observationally one such sequence. -/
def incrementSeq (k : String) : Nat → MockStorage → List Int
  | 0, _ => []
  | n + 1, m => (m.increment k 1).1 :: incrementSeq k n (incrStep m k)

theorem incrementSeq_from (k : String) :
    ∀ (n : Nat) (m : MockStorage),
      incrementSeq k n m =
        (List.range n).map (fun i : Nat => (m.counters k).getD 0 + (i : Int) + 1) := by
  intro n
  induction n with
  | zero => intro m; simp [incrementSeq]
  | succ n ih =>
    intro m
    rw [List.range_succ_eq_map]
    simp only [incrementSeq, ih, incrStep_counters_self, Option.getD_some,
      List.map_cons, List.map_map]
    congr 1
    · simp [MockStorage.increment]
    · apply List.map_congr_left
      intro i _
      simp only [Function.comp_apply]
      push_cast
      ring

/-- C6: `K` increments on a cold key — since each Increment of the backend
is atomic (mutex-guarded in the in-memory backend, native INCR in the
production backend), a concurrent execution of `K` calls linearizes to this
sequence — return exactly the values `1..K`: `K` values, pairwise distinct,
and a value is returned iff it lies in `{1..K}` (no duplicate, no gap). -/
theorem c6_cold_key_increment_values (K : Nat) (k : String) (m : MockStorage)
    (hcold : m.counters k = none) :
    incrementSeq k K m = (List.range K).map (fun i : Nat => (i : Int) + 1)
    ∧ (incrementSeq k K m).length = K
    ∧ (incrementSeq k K m).Nodup
    ∧ (∀ v : Int, v ∈ incrementSeq k K m ↔ 1 ≤ v ∧ v ≤ (K : Int)) := by
  have hval : incrementSeq k K m = (List.range K).map (fun i : Nat => (i : Int) + 1) := by
    rw [incrementSeq_from, hcold]
    apply List.map_congr_left
    intro i _
    simp
  refine ⟨hval, ?_, ?_, ?_⟩
  · rw [hval]; simp
  · rw [hval]
    refine List.Nodup.map ?_ (List.nodup_range K)
    intro a b hab
    have hab' : (a : Int) + 1 = (b : Int) + 1 := hab
    omega
  · intro v
    rw [hval]
    simp only [List.mem_map, List.mem_range]
    constructor
    · rintro ⟨i, hi, rfl⟩
      omega
    · rintro ⟨h1, h2⟩
      refine ⟨(v - 1).toNat, ?_, ?_⟩ <;> omega

/-- Witness for C6 with three increments of key "k" from a fresh store. -/
theorem c6_cold_key_increment_values_witness :
    (newMockStorage 0).counters "k" = none
    ∧ incrementSeq "k" 3 (newMockStorage 0) =
        (List.range 3).map (fun i : Nat => (i : Int) + 1)
    ∧ (incrementSeq "k" 3 (newMockStorage 0)).Nodup := by
  have h := c6_cold_key_increment_values 3 "k" (newMockStorage 0) rfl
  exact ⟨rfl, h.1, h.2.2.1⟩

/-- The parts of an HTTP request the middleware reads: the transport remote
address and the raw values of the `X-Forwarded-For` and `API_KEY` headers
(Go's `Header.Get` yields `""` for an absent header). -/
structure HttpRequest where
  remoteAddr : String
  xForwardedFor : String
  apiKey : String
deriving Repr, DecidableEq

/-- Outcome of the middleware for one request: either the wrapped handler is
invoked with a request, or a response (status, Content-Type, body) is
written and the wrapped handler is not invoked. -/
inductive HandlerResult where
  | nextInvoked (req : HttpRequest)
  | rejected (status : Nat) (contentType : String) (body : String)
deriving Repr, DecidableEq

/-- The fixed JSON error body written on rejection
(`pkg/middleware/ratelimiter.go`). -/
def rateLimitBody : String :=
  "\x7b\"error\": \"you have reached the maximum number of requests or actions allowed within a certain time frame\"\x7d"

/-- `(*RateLimiterMiddleware).Handler`: take the IP from `X-Forwarded-For`
when non-empty, else the remote address; take the token from `API_KEY`;
on a CheckLimit error write status 429 with `Content-Type: application/json`
and the fixed body and do not invoke the wrapped handler; otherwise invoke
the wrapped handler with the request unmodified. -/
def middlewareHandler (cfg : Config) (req : HttpRequest) (m : MockStorage) :
    HandlerResult × MockStorage :=
  let ip := if req.xForwardedFor ≠ "" then req.xForwardedFor else req.remoteAddr
  let token := req.apiKey
  match checkLimitRun cfg ip token m with
  | (.ok _, m1, _) => (.nextInvoked req, m1)
  | (.error _, m1, _) => (.rejected 429 "application/json" rateLimitBody, m1)

/-- C7: for every request, if CheckLimit returns no error the middleware
invokes the wrapped handler with the request unmodified; if CheckLimit
returns any error, whatever the reason, the middleware produces status 429,
Content-Type `application/json` and exactly the fixed JSON error body —
identical for every rejection reason — and does not invoke the handler. -/
theorem c7_middleware_mapping (cfg : Config) (req : HttpRequest) (m : MockStorage) :
    ((checkLimitRun cfg
        (if req.xForwardedFor ≠ "" then req.xForwardedFor else req.remoteAddr)
        req.apiKey m).1 = .ok () →
      (middlewareHandler cfg req m).1 = .nextInvoked req)
    ∧ (∀ e : CheckError, (checkLimitRun cfg
        (if req.xForwardedFor ≠ "" then req.xForwardedFor else req.remoteAddr)
        req.apiKey m).1 = .error e →
      (middlewareHandler cfg req m).1 =
        .rejected 429 "application/json" rateLimitBody) := by
  have hdef : middlewareHandler cfg req m =
      (match checkLimitRun cfg
          (if req.xForwardedFor ≠ "" then req.xForwardedFor else req.remoteAddr)
          req.apiKey m with
        | (.ok _, m1, _) => (HandlerResult.nextInvoked req, m1)
        | (.error _, m1, _) =>
            (HandlerResult.rejected 429 "application/json" rateLimitBody, m1)) := rfl
  rcases hrun : checkLimitRun cfg
      (if req.xForwardedFor ≠ "" then req.xForwardedFor else req.remoteAddr)
      req.apiKey m with ⟨r, m1, l⟩
  rw [hrun] at hdef
  constructor
  · intro h
    simp only at h
    subst h
    rw [hdef]
  · intro e h
    simp only at h
    subst h
    rw [hdef]

/-- Witness for C7: with limits 0 a first tokenless request from "1.2.3.4"
is rejected by CheckLimit and the middleware writes the 429 JSON response. -/
theorem c7_middleware_mapping_witness :
    (checkLimitRun ⟨0, 0, 300⟩ "1.2.3.4" "" (newMockStorage 0)).1 =
      .error .ipLimitExceeded
    ∧ (middlewareHandler ⟨0, 0, 300⟩ ⟨"1.2.3.4", "", ""⟩ (newMockStorage 0)).1 =
        .rejected 429 "application/json" rateLimitBody := by
  refine ⟨rfl, ?_⟩
  exact (c7_middleware_mapping ⟨0, 0, 300⟩ ⟨"1.2.3.4", "", ""⟩ (newMockStorage 0)).2
    .ipLimitExceeded rfl

/-- C10: the engine uses the raw identity string as the storage key in both
dimensions: when the same string `s` is over the governing limit in both
dimensions, a token-dimension request with token `s` and an
address-dimension request from address `s` read the same counter value and
leave the IDENTICAL post-state — both increment, block and reset the very
same counter entry and block entry of key `s` — differing only in the
dimension tag of the rejection. -/
theorem c10_shared_keyspace (cfg : Config) (m : MockStorage) (s ip : String)
    (hs : s ≠ "") (hbs : m.isBlocked s = false) (hbi : m.isBlocked ip = false)
    (hct : cfg.tokenLimit < (m.counters s).getD 0 + 1)
    (hci : cfg.ipLimit < (m.counters s).getD 0 + 1) :
    (checkLimitRun cfg ip s m).2.1 = (checkLimitRun cfg s "" m).2.1
    ∧ (checkLimitRun cfg ip s m).2.1 = rejectStep m s cfg.blockDuration
    ∧ (checkLimitRun cfg ip s m).1 = .error .tokenLimitExceeded
    ∧ (checkLimitRun cfg s "" m).1 = .error .ipLimitExceeded := by
  rw [run_token_reject cfg m ip s hs hbs hbi hct, run_addr_reject cfg m s hbs hci]
  exact ⟨rfl, rfl, rfl, rfl⟩

/-- Witness for C10 with limits 0: a token request with token "1.2.3.4" and
an address request from "1.2.3.4" produce the identical storage state. -/
theorem c10_shared_keyspace_witness :
    ("1.2.3.4" : String) ≠ ""
    ∧ (checkLimitRun ⟨0, 0, 300⟩ "9.9.9.9" "1.2.3.4" (newMockStorage 0)).2.1 =
        (checkLimitRun ⟨0, 0, 300⟩ "1.2.3.4" "" (newMockStorage 0)).2.1
    ∧ (checkLimitRun ⟨0, 0, 300⟩ "9.9.9.9" "1.2.3.4" (newMockStorage 0)).1 =
        .error .tokenLimitExceeded := by
  have h := c10_shared_keyspace ⟨0, 0, 300⟩ (newMockStorage 0) "1.2.3.4" "9.9.9.9"
    (by decide) rfl rfl (by simp [newMockStorage]) (by simp [newMockStorage])
  exact ⟨by decide, h.1, h.2.2.1⟩
